import Mathlib

/-!
Verification of the request router, chat handler and reverse-proxy handler
of the llm-chat-app worker (`src/index.ts`).

The embedding is shallow:

* JavaScript strings are Lean `String`s; `String.prototype.startsWith` is
  `jsStartsWith` (a prefix test on the character list).
* A WHATWG `URL` is a record of its components; the proxy's mutations of
  `hostname`, `protocol` and `port` are record updates.
* A `Request` carries method, URL, headers and an optional body; headers are
  a finite map from (lower-cased) header names to values, modelled as a
  function `String → Option String`, with `Headers.set` as a keyed overwrite.
* `Response` records status, the explicitly-set headers, and a body that is
  either text or an opaque stream (identified by a number).
* Effectful capabilities (`env.ASSETS.fetch`, `env.AI.run`, the ambient
  `fetch`, and JSON body parsing) are oracle parameters; a `try`/`catch`
  block around a fallible capability becomes a `match` on its
  `Except`-valued outcome.
-/

/-- JavaScript `s.startsWith(p)`: `p` is a prefix of `s` (on code units). -/
def jsStartsWith (s p : String) : Bool :=
  p.data.isPrefixOf s.data

/-- A chat message (`ChatMessage` in `src/types.ts`).  The `role` is kept as
a string because the request body is cast, not validated, in
`handleChatRequest`; the declared values are `"system"`, `"user"`,
`"assistant"`. -/
structure ChatMessage where
  role : String
  content : String
deriving DecidableEq, Repr

/-- The components of a WHATWG URL that the worker reads or writes. -/
structure URL where
  protocol : String
  username : String
  password : String
  hostname : String
  port : String
  pathname : String
  search : String
  hash : String
deriving DecidableEq, Repr

/-- An HTTP request: method, parsed URL, headers (a map from lower-cased
header name to value) and an optional body. -/
structure Request where
  method : String
  url : URL
  headers : String → Option String
  body : Option String

/-- A response body: either text or an opaque byte stream (streams are
identified by a number so that distinct upstream streams stay distinct). -/
inductive BodyVal where
  | text (s : String)
  | stream (id : Nat)
deriving DecidableEq, Repr

/-- An HTTP response: status, the explicitly-set headers, and a body. -/
structure Response where
  status : Nat
  headers : List (String × String)
  body : BodyVal
deriving DecidableEq, Repr

/-- Constant `MODEL_ID` (index.ts line 14). -/
def MODEL_ID : String := "@cf/meta/llama-3.1-8b-instruct-fp8"

/-- Constant `SYSTEM_PROMPT` (index.ts lines 17-18). -/
def SYSTEM_PROMPT : String :=
  "You are a helpful, friendly assistant. Provide concise and accurate responses."

/-- Constant `GROQ_API_HOST` (index.ts line 119). -/
def GROQ_API_HOST : String := "api.groq.com"

/-- The dispatch decision of the worker's `fetch` entry point: which handler
a request is delegated to (the delegated request is carried along), or which
static response is produced. -/
inductive RouteResult where
  | assets (req : Request)
  | chat (req : Request)
  | methodNotAllowed
  | proxy (req : Request)
  | notFound

/-- The branch structure of `fetch` (index.ts lines 29-54): asset
passthrough for `/` or any path not starting with `/api/`; `/api/chat` is
POST-only; then the `/openai/v1/` check; otherwise 404. -/
def route (req : Request) : RouteResult :=
  if req.url.pathname == "/" || !(jsStartsWith req.url.pathname "/api/") then
    .assets req
  else if req.url.pathname == "/api/chat" then
    if req.method == "POST" then .chat req
    else .methodNotAllowed
  else if jsStartsWith req.url.pathname "/openai/v1/" then
    .proxy req
  else
    .notFound

/-- Response `new Response("Not found", { status: 404 })` (index.ts line 53). -/
def notFoundResponse : Response :=
  { status := 404, headers := [], body := .text "Not found" }

/-- Response `new Response("Method not allowed", { status: 405 })` (index.ts line 44). -/
def methodNotAllowedResponse : Response :=
  { status := 405, headers := [], body := .text "Method not allowed" }

/-- The full `fetch` entry point, with the three delegated handlers as
oracle parameters. -/
def workerFetch (req : Request)
    (assetsFetch chatHandler proxyHandler : Request → Response) : Response :=
  match route req with
  | .assets r => assetsFetch r
  | .chat r => chatHandler r
  | .methodNotAllowed => methodNotAllowedResponse
  | .proxy r => proxyHandler r
  | .notFound => notFoundResponse

/-- Outcome of `await request.json()` together with the destructuring
`const { messages = [] } = ...` (index.ts lines 66-68): either the parsed
message list (already defaulted to `[]` when the field is absent), or a
thrown error (malformed JSON, or a body that cannot be destructured). -/
inductive JsonBody where
  | ok (messages : List ChatMessage)
  | malformed

/-- Lines 71-73 of index.ts: if no message has role `"system"`, prepend
(`unshift`) the default system message. -/
def ensureSystemPrompt (messages : List ChatMessage) : List ChatMessage :=
  if messages.any (fun msg => msg.role == "system") then messages
  else { role := "system", content := SYSTEM_PROMPT } :: messages

/-- The argument object of `env.AI.run` (index.ts lines 75-81): model id,
message list, `max_tokens`, `stream` flag. -/
structure AiRunArgs where
  model : String
  messages : List ChatMessage
  max_tokens : Nat
  stream : Bool
deriving DecidableEq, Repr

/-- The inference call the chat handler performs for a parsed body, if any:
`none` when parsing threw, otherwise `env.AI.run(MODEL_ID, { messages:
ensureSystemPrompt messages, max_tokens: 1024, stream: true })`. -/
def chatAiArgs : JsonBody → Option AiRunArgs
  | .malformed => none
  | .ok messages =>
      some { model := MODEL_ID, messages := ensureSystemPrompt messages,
             max_tokens := 1024, stream := true }

/-- The catch-branch response of `handleChatRequest` (index.ts lines
101-107). -/
def chatErrorResponse : Response :=
  { status := 500,
    headers := [("content-type", "application/json")],
    body := .text "\x7b\"error\":\"Failed to process request\"\x7d" }

/-- The success response of `handleChatRequest` (index.ts lines 92-98):
status 200 with the SSE headers and the unconsumed upstream stream. -/
def sseResponse (streamId : Nat) : Response :=
  { status := 200,
    headers := [("content-type", "text/event-stream; charset=utf-8"),
                ("cache-control", "no-cache"),
                ("connection", "keep-alive")],
    body := .stream streamId }

/-- Function `handleChatRequest` (index.ts lines 60-109).  The body-parse outcome and
the inference capability are oracles; any thrown error (parse failure or a
failing `env.AI.run` call) lands in the catch branch. -/
def handleChatRequest (body : JsonBody)
    (ai : AiRunArgs → Except Unit Nat) : Response :=
  match chatAiArgs body with
  | none => chatErrorResponse
  | some args =>
      match ai args with
      | .error _ => chatErrorResponse
      | .ok streamId => sseResponse streamId

/-- Lines 123-126 of index.ts: copy the inbound URL, then set `hostname` to
`GROQ_API_HOST`, force `protocol` to `https:` and clear `port`. -/
def rewriteProxyUrl (u : URL) : URL :=
  { u with hostname := GROQ_API_HOST, protocol := "https:", port := "" }

/-- Operation `Headers.set`: a keyed overwrite of one header name. -/
def headersSet (hs : String → Option String) (k v : String) :
    String → Option String :=
  fun q => if q = k then some v else hs q

/-- Lines 129-135 of index.ts: copy the inbound headers, overwrite `host`,
and, when `env.GROQ_API_KEY` is truthy (present and non-empty), overwrite
`authorization` with the bearer credential. -/
def buildProxyHeaders (inbound : String → Option String)
    (apiKey : Option String) : String → Option String :=
  let hs := headersSet inbound "host" GROQ_API_HOST
  match apiKey with
  | none => hs
  | some key => if key == "" then hs
                else headersSet hs "authorization" ("Bearer " ++ key)

/-- Object `modifiedRequest` (index.ts lines 137-141): the outbound request built
from the rewritten URL, the original method, the rewritten headers, and the
original body. -/
def modifiedRequest (req : Request) (apiKey : Option String) : Request :=
  { method := req.method,
    url := rewriteProxyUrl req.url,
    headers := buildProxyHeaders req.headers apiKey,
    body := req.body }

/-- The catch-branch response of `handleGroqProxy` (index.ts lines
146-152). -/
def proxyErrorResponse : Response :=
  { status := 500,
    headers := [("content-type", "application/json")],
    body := .text "\x7b\"error\":\"Failed to proxy request\"\x7d" }

/-- Function `handleGroqProxy` (index.ts lines 114-154) with the ambient network
`fetch` as an oracle: forward the modified request and return the upstream
response, or the catch-branch response when the call throws. -/
def handleGroqProxy (req : Request) (apiKey : Option String)
    (net : Request → Except Unit Response) : Response :=
  match net (modifiedRequest req apiKey) with
  | .ok resp => resp
  | .error _ => proxyErrorResponse

/-- A concrete request with the given method and path, used to instantiate
the routing theorems on concrete inputs. -/
def exRequest (method pathname : String) : Request :=
  { method := method,
    url := { protocol := "https:", username := "", password := "",
             hostname := "worker.example", port := "", pathname := pathname,
             search := "", hash := "" },
    headers := fun _ => none,
    body := none }

/-- A concrete response standing for whatever the asset capability serves. -/
def exAssetResponse : Response :=
  { status := 200, headers := [("content-type", "text/html")],
    body := .text "<html>asset</html>" }

/-- An asset-capability oracle that serves `exAssetResponse`. -/
def exAssetsOracle : Request → Response :=
  fun _ => exAssetResponse

/-- A placeholder handler oracle for branches a test does not reach. -/
def exOtherOracle : Request → Response :=
  fun _ => { status := 0, headers := [], body := .text "" }

/-- A concrete inbound URL for a proxied request. -/
def exProxyUrl : URL :=
  { protocol := "http:", username := "", password := "",
    hostname := "worker.example", port := "8080",
    pathname := "/openai/v1/chat/completions", search := "?x=1", hash := "" }

/-- A concrete inbound header map carrying a caller-supplied
`authorization` value. -/
def exCallerHeaders : String → Option String :=
  fun q => if q = "authorization" then some "Bearer caller-token"
           else if q = "accept" then some "text/event-stream"
           else none

/-- An inference oracle that always throws. -/
def aiErrOracle : AiRunArgs → Except Unit Nat :=
  fun _ => .error ()

/-- A network oracle that always throws. -/
def netErrOracle : Request → Except Unit Response :=
  fun _ => .error ()

/-! ## Helper lemmas -/

theorem not_api_of_openai (s : String)
    (h : jsStartsWith s "/openai/v1/" = true) :
    jsStartsWith s "/api/" = false := by
  unfold jsStartsWith at h ⊢
  rw [show ("/openai/v1/" : String).data
        = ['/', 'o', 'p', 'e', 'n', 'a', 'i', '/', 'v', '1', '/'] from rfl] at h
  rw [show ("/api/" : String).data = ['/', 'a', 'p', 'i', '/'] from rfl]
  simp only [ List.isPrefixOf_iff_prefix] at h
  obtain ⟨t, ht⟩ := h
  rw [← ht]
  simp [List.isPrefixOf]

theorem not_openai_of_api (s : String)
    (h : jsStartsWith s "/api/" = true) :
    jsStartsWith s "/openai/v1/" = false := by
  unfold jsStartsWith at h ⊢
  rw [show ("/api/" : String).data = ['/', 'a', 'p', 'i', '/'] from rfl] at h
  rw [show ("/openai/v1/" : String).data
        = ['/', 'o', 'p', 'e', 'n', 'a', 'i', '/', 'v', '1', '/'] from rfl]
  simp only [ List.isPrefixOf_iff_prefix] at h
  obtain ⟨t, ht⟩ := h
  rw [← ht]
  simp [List.isPrefixOf]

theorem not_root_of_api (s : String)
    (h : jsStartsWith s "/api/" = true) :
    (s == "/") = false := by
  rw [beq_eq_false_iff_ne]
  intro he
  rw [he] at h
  exact absurd h (by decide)

theorem ensureSystemPrompt_has_system (messages : List ChatMessage) :
    (ensureSystemPrompt messages).any (fun msg => msg.role == "system")
      = true := by
  unfold ensureSystemPrompt
  cases h : messages.any (fun msg => msg.role == "system") with
  | true => simp [h]
  | false => simp

/-! ## Claims about the router -/

/-- Claim C2: every request whose URL path is `/` or does not start with
`/api/` is delegated by the router to the static-asset capability, with the
request passed along unmodified, for any method and body. -/
theorem router_delegates_non_api_to_assets (req : Request)
    (h : req.url.pathname = "/"
          ∨ jsStartsWith req.url.pathname "/api/" = false) :
    route req = RouteResult.assets req := by
  unfold route
  rcases h with h | h <;> simp [h]

/-- Witness for `router_delegates_non_api_to_assets`: a POST to
`/unknown/path` with a body is routed to the asset capability. -/
theorem router_delegates_non_api_to_assets_witness :
    route (exRequest "POST" "/unknown/path")
      = RouteResult.assets (exRequest "POST" "/unknown/path") :=
  router_delegates_non_api_to_assets _ (Or.inr (by decide))

/-- Claim C1 (divergence): a request whose path starts with `/openai/v1/`
is routed to the asset capability, not to the proxy handler — the
`startsWith("/openai/v1/")` branch of the router is unreachable because the
asset branch already captures every path not starting with `/api/`. -/
theorem openai_path_routes_to_assets (req : Request)
    (h : jsStartsWith req.url.pathname "/openai/v1/" = true) :
    route req = RouteResult.assets req
    ∧ route req ≠ RouteResult.proxy req := by
  have hapi := not_api_of_openai _ h
  unfold route
  simp [hapi]

/-- Witness for `openai_path_routes_to_assets` at
`GET /openai/v1/chat/completions`. -/
theorem openai_path_routes_to_assets_witness :
    route (exRequest "GET" "/openai/v1/chat/completions")
      = RouteResult.assets (exRequest "GET" "/openai/v1/chat/completions")
    ∧ route (exRequest "GET" "/openai/v1/chat/completions")
      ≠ RouteResult.proxy (exRequest "GET" "/openai/v1/chat/completions") :=
  openai_path_routes_to_assets _ (by decide)

/-- Claim C3 (counterexample): `GET /unknown/path` does not receive the
router's 404 response — it is delegated to the asset capability, and with
an asset capability serving a 200 page the caller receives that page. -/
theorem unknown_path_not_404_cex :
    workerFetch (exRequest "GET" "/unknown/path")
        exAssetsOracle exOtherOracle exOtherOracle = exAssetResponse
    ∧ exAssetResponse.status = 200
    ∧ ¬ (exAssetResponse.status = 404
          ∧ exAssetResponse.body = BodyVal.text "Not found") := by
  refine ⟨by decide, rfl, by decide⟩

/-- Claim C3 (amended): a GET request to a path that starts with `/api/`
but is not `/api/chat` is matched by no route and receives the response
with status 404 and body "Not found". -/
theorem unmatched_api_path_404 (req : Request)
    (assetsFetch chatHandler proxyHandler : Request → Response)
    (hm : req.method = "GET")
    (hapi : jsStartsWith req.url.pathname "/api/" = true)
    (hne : req.url.pathname ≠ "/api/chat") :
    workerFetch req assetsFetch chatHandler proxyHandler = notFoundResponse
    ∧ notFoundResponse.status = 404
    ∧ notFoundResponse.body = BodyVal.text "Not found" := by
  have h1 : (req.url.pathname == "/") = false := not_root_of_api _ hapi
  have h2 := not_openai_of_api _ hapi
  have h3 : (req.url.pathname == "/api/chat") = false :=
    beq_eq_false_iff_ne.mpr hne
  refine ⟨?_, rfl, rfl⟩
  unfold workerFetch route
  simp [h1, h2, h3, hapi]

/-- Witness for `unmatched_api_path_404` at `GET /api/unknown`. -/
theorem unmatched_api_path_404_witness :
    workerFetch (exRequest "GET" "/api/unknown")
        exAssetsOracle exOtherOracle exOtherOracle = notFoundResponse :=
  (unmatched_api_path_404 (exRequest "GET" "/api/unknown")
    exAssetsOracle exOtherOracle exOtherOracle rfl (by decide) (by decide)).1

/-! ## Claims about the chat handler -/

/-- Claim C4: for every parsed conversation, if no element has role
`system` the handler forwards to the inference call the conversation with
the default system message prepended (original order preserved); if some
element has role `system`, the conversation is forwarded unchanged. -/
theorem chat_system_prompt_insertion (messages : List ChatMessage) :
    (messages.any (fun msg => msg.role == "system") = false →
      chatAiArgs (.ok messages)
        = some { model := MODEL_ID,
                 messages := { role := "system", content := SYSTEM_PROMPT }
                              :: messages,
                 max_tokens := 1024, stream := true })
    ∧ (messages.any (fun msg => msg.role == "system") = true →
      chatAiArgs (.ok messages)
        = some { model := MODEL_ID, messages := messages,
                 max_tokens := 1024, stream := true }) := by
  constructor
  · intro h
    simp [chatAiArgs, ensureSystemPrompt, h]
  · intro h
    simp [chatAiArgs, ensureSystemPrompt, h]

/-- Witness for `chat_system_prompt_insertion`: applied to a conversation
with no system message (insertion happens) and to one containing a system
message (sequence forwarded unchanged). -/
theorem chat_system_prompt_insertion_witness :
    chatAiArgs (.ok [{ role := "user", content := "hi" }])
      = some { model := MODEL_ID,
               messages := [{ role := "system", content := SYSTEM_PROMPT },
                            { role := "user", content := "hi" }],
               max_tokens := 1024, stream := true }
    ∧ chatAiArgs (.ok [{ role := "user", content := "hi" },
                       { role := "system", content := "be terse" }])
      = some { model := MODEL_ID,
               messages := [{ role := "user", content := "hi" },
                            { role := "system", content := "be terse" }],
               max_tokens := 1024, stream := true } :=
  ⟨(chat_system_prompt_insertion [{ role := "user", content := "hi" }]).1
      (by decide),
   (chat_system_prompt_insertion [{ role := "user", content := "hi" },
      { role := "system", content := "be terse" }]).2 (by decide)⟩

/-- Claim C10: every message sequence actually passed to the inference
capability contains a `system`-role element, and an empty inbound
conversation yields exactly the one default system message. -/
theorem inference_input_has_system (messages : List ChatMessage)
    (args : AiRunArgs) (h : chatAiArgs (.ok messages) = some args) :
    args.messages.any (fun msg => msg.role == "system") = true
    ∧ chatAiArgs (.ok [])
        = some { model := MODEL_ID,
                 messages := [{ role := "system", content := SYSTEM_PROMPT }],
                 max_tokens := 1024, stream := true } := by
  refine ⟨?_, by simp [chatAiArgs, ensureSystemPrompt]⟩
  have hargs : args.messages = ensureSystemPrompt messages := by
    simp [chatAiArgs] at h
    rw [← h]
  rw [hargs]
  exact ensureSystemPrompt_has_system messages

/-- Witness for `inference_input_has_system` at a one-element user-only
conversation. -/
theorem inference_input_has_system_witness :
    ({ model := MODEL_ID,
       messages := [{ role := "system", content := SYSTEM_PROMPT },
                    { role := "user", content := "hi" }],
       max_tokens := 1024, stream := true } : AiRunArgs).messages.any
        (fun msg => msg.role == "system") = true :=
  (inference_input_has_system [{ role := "user", content := "hi" }] _
    (by decide)).1

/-- Claim C6: every error raised in the chat handler — a body-parse failure
or a failing inference call — is caught and turned into the status-500
response with JSON body `\x7b"error":"Failed to process request"\x7d`; the
handler always returns a response (either that error response or the SSE
stream response), never letting an exception escape. -/
theorem chat_handler_error_containment (body : JsonBody)
    (ai : AiRunArgs → Except Unit Nat) :
    handleChatRequest .malformed ai = chatErrorResponse
    ∧ (∀ args e, chatAiArgs body = some args → ai args = .error e →
        handleChatRequest body ai = chatErrorResponse)
    ∧ chatErrorResponse.status = 500
    ∧ chatErrorResponse.body
        = BodyVal.text "\x7b\"error\":\"Failed to process request\"\x7d"
    ∧ chatErrorResponse.headers = [("content-type", "application/json")]
    ∧ (handleChatRequest body ai = chatErrorResponse
        ∨ ∃ streamId, handleChatRequest body ai = sseResponse streamId) := by
  refine ⟨by simp [handleChatRequest, chatAiArgs], ?_, rfl, rfl, rfl, ?_⟩
  · intro args e h1 h2
    simp [handleChatRequest, h1, h2]
  · cases hb : chatAiArgs body with
    | none => exact Or.inl (by simp [handleChatRequest, hb])
    | some args =>
      cases ha : ai args with
      | error e => exact Or.inl (by simp [handleChatRequest, hb, ha])
      | ok streamId =>
        exact Or.inr ⟨streamId, by simp [handleChatRequest, hb, ha]⟩

/-- Witness for `chat_handler_error_containment`: with a throwing inference
oracle, a well-formed empty conversation still gets the 500 response. -/
theorem chat_handler_error_containment_witness :
    handleChatRequest (.ok []) aiErrOracle = chatErrorResponse :=
  (chat_handler_error_containment (.ok []) aiErrOracle).2.1
    { model := MODEL_ID,
      messages := [{ role := "system", content := SYSTEM_PROMPT }],
      max_tokens := 1024, stream := true } () (by decide) rfl

/-! ## Claims about the proxy handler -/

/-- Claim C7: the outbound target URL equals the inbound URL except that
the hostname becomes `api.groq.com`, the protocol is forced to `https:`
and the port is cleared; pathname, search, hash, username and password are
unchanged. -/
theorem proxy_url_rewrite (u : URL) :
    (rewriteProxyUrl u).hostname = "api.groq.com"
    ∧ (rewriteProxyUrl u).protocol = "https:"
    ∧ (rewriteProxyUrl u).port = ""
    ∧ (rewriteProxyUrl u).pathname = u.pathname
    ∧ (rewriteProxyUrl u).search = u.search
    ∧ (rewriteProxyUrl u).hash = u.hash
    ∧ (rewriteProxyUrl u).username = u.username
    ∧ (rewriteProxyUrl u).password = u.password :=
  ⟨rfl, rfl, rfl, rfl, rfl, rfl, rfl, rfl⟩

/-- Claim C5 (counterexample): for the inbound path
`/openai/v1/chat/completions`, the outbound request's path is the inbound
path unchanged — `/openai/v1/chat/completions` — which is not of the form
`/v1/...`, even though host and protocol are rewritten as claimed. -/
theorem proxy_outbound_path_cex :
    (modifiedRequest (exRequest "POST" "/openai/v1/chat/completions")
        (some "sk-test")).url.pathname = "/openai/v1/chat/completions"
    ∧ jsStartsWith
        (modifiedRequest (exRequest "POST" "/openai/v1/chat/completions")
          (some "sk-test")).url.pathname "/v1/" = false
    ∧ (modifiedRequest (exRequest "POST" "/openai/v1/chat/completions")
        (some "sk-test")).url.hostname = "api.groq.com" := by
  refine ⟨rfl, by decide, rfl⟩

/-- Claim C5 (amended): every request under `/openai/v1/` is forwarded to
`https://api.groq.com` with the inbound path preserved verbatim — the
outbound URL's path is of the form `/openai/v1/...`, not `/v1/...` — and
with the inbound method and body kept. -/
theorem proxy_forwards_to_groq_host (req : Request) (apiKey : Option String)
    (h : jsStartsWith req.url.pathname "/openai/v1/" = true) :
    (modifiedRequest req apiKey).url.hostname = "api.groq.com"
    ∧ (modifiedRequest req apiKey).url.protocol = "https:"
    ∧ (modifiedRequest req apiKey).url.pathname = req.url.pathname
    ∧ jsStartsWith (modifiedRequest req apiKey).url.pathname "/openai/v1/"
        = true
    ∧ (modifiedRequest req apiKey).method = req.method
    ∧ (modifiedRequest req apiKey).body = req.body :=
  ⟨rfl, rfl, rfl, h, rfl, rfl⟩

/-- Witness for `proxy_forwards_to_groq_host` at
`POST /openai/v1/chat/completions` with no configured credential. -/
theorem proxy_forwards_to_groq_host_witness :
    (modifiedRequest (exRequest "POST" "/openai/v1/chat/completions")
        none).url.hostname = "api.groq.com"
    ∧ (modifiedRequest (exRequest "POST" "/openai/v1/chat/completions")
        none).url.protocol = "https:"
    ∧ (modifiedRequest (exRequest "POST" "/openai/v1/chat/completions")
        none).url.pathname = "/openai/v1/chat/completions" := by
  have h := proxy_forwards_to_groq_host
    (exRequest "POST" "/openai/v1/chat/completions") none (by decide)
  exact ⟨h.1, h.2.1, h.2.2.1⟩

/-- Claim C8: the outbound headers are the inbound headers with exactly two
keyed overwrites — `host` becomes the upstream host always, and
`authorization` becomes `Bearer <credential>` exactly when a credential is
configured (truthy); with no configured credential the caller's
`authorization` header (possibly absent) passes through, and every other
header passes through verbatim. -/
theorem proxy_header_rewrite (inbound : String → Option String)
    (apiKey : Option String) :
    buildProxyHeaders inbound apiKey "host" = some GROQ_API_HOST
    ∧ (∀ key, apiKey = some key → key ≠ "" →
        buildProxyHeaders inbound apiKey "authorization"
          = some ("Bearer " ++ key))
    ∧ (apiKey = none →
        buildProxyHeaders inbound apiKey "authorization"
          = inbound "authorization")
    ∧ (∀ k, k ≠ "host" → k ≠ "authorization" →
        buildProxyHeaders inbound apiKey k = inbound k) := by
  refine ⟨?_, ?_, ?_, ?_⟩
  · cases apiKey with
    | none => simp [buildProxyHeaders, headersSet]
    | some key =>
      cases hk : key == "" <;> simp [buildProxyHeaders, headersSet, hk]
  · intro key hk hne
    subst hk
    have hb : (key == "") = false := beq_eq_false_iff_ne.mpr hne
    simp [buildProxyHeaders, headersSet, hb]
  · intro h
    subst h
    simp [buildProxyHeaders, headersSet]
  · intro k h1 h2
    cases apiKey with
    | none => simp [buildProxyHeaders, headersSet, h1]
    | some key =>
      cases hk : key == "" <;>
        simp [buildProxyHeaders, headersSet, h1, h2, hk]

/-- Witness for `proxy_header_rewrite`: with a configured key the caller's
`authorization` is overwritten and `accept` passes through; with no key the
caller's `authorization` passes through untouched. -/
theorem proxy_header_rewrite_witness :
    buildProxyHeaders exCallerHeaders (some "sk-test") "host"
      = some GROQ_API_HOST
    ∧ buildProxyHeaders exCallerHeaders (some "sk-test") "authorization"
      = some "Bearer sk-test"
    ∧ buildProxyHeaders exCallerHeaders (some "sk-test") "accept"
      = some "text/event-stream"
    ∧ buildProxyHeaders exCallerHeaders none "authorization"
      = some "Bearer caller-token" := by
  have h1 := proxy_header_rewrite exCallerHeaders (some "sk-test")
  have h2 := proxy_header_rewrite exCallerHeaders none
  exact ⟨h1.1, h1.2.1 "sk-test" rfl (by decide),
    (h1.2.2.2 "accept" (by decide) (by decide)).trans (by decide),
    (h2.2.2.1 rfl).trans (by decide)⟩

/-- Claim C9: when the outbound network call throws, the proxy handler
returns the status-500 response with JSON body
`\x7b"error":"Failed to proxy request"\x7d`. -/
theorem proxy_error_containment (req : Request) (apiKey : Option String)
    (net : Request → Except Unit Response) (e : Unit)
    (h : net (modifiedRequest req apiKey) = .error e) :
    handleGroqProxy req apiKey net = proxyErrorResponse
    ∧ proxyErrorResponse.status = 500
    ∧ proxyErrorResponse.body
        = BodyVal.text "\x7b\"error\":\"Failed to proxy request\"\x7d"
    ∧ proxyErrorResponse.headers = [("content-type", "application/json")] := by
  refine ⟨?_, rfl, rfl, rfl⟩
  unfold handleGroqProxy
  rw [h]

/-- Witness for `proxy_error_containment` with an always-throwing network
oracle. -/
theorem proxy_error_containment_witness :
    handleGroqProxy (exRequest "POST" "/openai/v1/chat/completions")
        (some "sk-test") netErrOracle = proxyErrorResponse :=
  (proxy_error_containment (exRequest "POST" "/openai/v1/chat/completions")
    (some "sk-test") netErrOracle () rfl).1
